import Mathlib

/-!
Shallow embedding of the SPARK energy-analysis core (rate matching, battery
dispatch simulation, solar estimation, combined dispatch, aggregation and
statistics), translated from the TypeScript sources:
  src/utils/batterySimulator.ts, src/utils/csvParser.ts,
  src/utils/tariffPresets.ts (solar simulator part) and the pricing
  calculator (matchRatePeriod / isTimeInRange / calculateTotalCost).

Modelling conventions:
* JavaScript numbers are modelled as exact rationals; on code paths where
  the source can produce NaN or a signed Infinity (division by zero, Math.max of
  an empty spread, Math.min likewise) values live in the type JsNum, which
  is the rationals extended with nan, posInf and negInf, with arithmetic
  following the IEEE rules the JS engine applies.
* Timestamps are minutes since the Unix epoch (an integer); local time is
  identified with UTC (the sources use the host timezone only through
  date-fns formatting, which is orthogonal to every property checked here).
* Optional JS fields/parameters are Option values, and the idiom x || d
  (which treats 0 as unset) is the function jsOr.
-/

-- Batteries marks the rational-number arithmetic irreducible, which only
-- affects elaboration: restore default reducibility in this file so that
-- concrete runs of the embedded code can be settled by decide (the kernel
-- unfolds these definitions either way).
attribute [local semireducible] Rat.mul Rat.add Rat.sub Rat.inv

set_option maxRecDepth 100000

/-- JavaScript number on paths where specials can arise: an exact rational,
or one of NaN, +Infinity, -Infinity. -/
inductive JsNum where
  | fin : ℚ → JsNum
  | nan : JsNum
  | posInf : JsNum
  | negInf : JsNum
deriving DecidableEq

namespace JsNum

/-- JS multiplication restricted to the value combinations reachable in the
embedded code (finite times finite, and specials propagating per IEEE). -/
def mul : JsNum → JsNum → JsNum
  | nan, _ => nan
  | _, nan => nan
  | fin a, fin b => fin (a * b)
  | fin a, posInf => if a > 0 then posInf else if a < 0 then negInf else nan
  | posInf, fin a => if a > 0 then posInf else if a < 0 then negInf else nan
  | fin a, negInf => if a > 0 then negInf else if a < 0 then posInf else nan
  | negInf, fin a => if a > 0 then negInf else if a < 0 then posInf else nan
  | posInf, posInf => posInf
  | negInf, negInf => posInf
  | posInf, negInf => negInf
  | negInf, posInf => negInf

/-- JS division for the combinations reachable in the embedded code. -/
def div : JsNum → JsNum → JsNum
  | nan, _ => nan
  | _, nan => nan
  | fin a, fin b =>
      if b = 0 then (if a = 0 then nan else if a > 0 then posInf else negInf)
      else fin (a / b)
  | fin _, posInf => fin 0
  | fin _, negInf => fin 0
  | posInf, fin b => if b ≥ 0 then posInf else negInf
  | negInf, fin b => if b ≥ 0 then negInf else posInf
  | posInf, posInf => nan
  | posInf, negInf => nan
  | negInf, posInf => nan
  | negInf, negInf => nan

/-- The JS comparison x > 0 (false for NaN and -Infinity). -/
def gtZero : JsNum → Bool
  | fin a => decide (0 < a)
  | nan => false
  | posInf => true
  | negInf => false

end JsNum

/-- The JS idiom x || d for an optional numeric field x: the default d is
used when the field is absent or equal to 0 (0 is falsy in JS). -/
def jsOr (x : Option ℚ) (d : ℚ) : ℚ :=
  match x with
  | none => d
  | some v => if v = 0 then d else v

/-- Math.round: round half toward positive infinity, i.e. the floor of
q + 1/2 (integer division of a reduced fraction by its positive
denominator floors). -/
def jsRound (q : ℚ) : ℤ :=
  let r := q + 1/2
  r.num / (r.den : ℤ)

/-- Math.max over a spread list: -Infinity for the empty list. -/
def jsMaxList (l : List ℚ) : JsNum :=
  match l with
  | [] => JsNum.negInf
  | x :: xs => JsNum.fin (xs.foldl max x)

/-- Math.min over a spread list of rationals, for the non-empty lists the
simulators are run with; the +Infinity empty case is mapped to 0 here and
is exercised only when the loop that would dereference it never runs. -/
def qMinList (l : List ℚ) : ℚ :=
  match l with
  | [] => 0
  | x :: xs => xs.foldl min x

/-- Minutes since the Unix epoch; local time is identified with UTC. -/
abbrev Timestamp := ℤ

/-- Hour of day, 0 to 23 (date-fns getHours). -/
def tsHour (t : Timestamp) : ℤ := t.emod 1440 / 60

/-- Minute within the hour, 0 to 59. -/
def tsMinute (t : Timestamp) : ℤ := t.emod 60

/-- Calendar day index, floor of minutes over minutes-per-day (pre-epoch
timestamps round down, matching date-fns startOfDay on negative dates). -/
def tsDayIndex (t : Timestamp) : ℤ := Int.fdiv t 1440

/-- Civil date (year, month 1-12, day 1-31) from a day index, the standard
days-to-civil conversion for the proleptic Gregorian calendar. -/
def civilFromDays (z0 : ℤ) : ℤ × ℤ × ℤ :=
  let z := z0 + 719468
  -- Lean division on ℤ floors for a positive divisor, which is exactly
  -- what the guarded truncating form of the standard algorithm computes.
  let era : ℤ := z / 146097
  let doe : ℤ := z - era * 146097
  let yoe : ℤ := (doe - doe / 1460 + doe / 36524 - doe / 146096) / 365
  let y : ℤ := yoe + era * 400
  let doy : ℤ := doe - (365 * yoe + yoe / 4 - yoe / 100)
  let mp : ℤ := (5 * doy + 2) / 153
  let d : ℤ := doy - (153 * mp + 2) / 5 + 1
  let m : ℤ := mp + (if mp < 10 then 3 else -9)
  (y + (if m ≤ 2 then 1 else 0), m, d)

/-- Month of a timestamp, 0-based as in date-fns getMonth. -/
def tsMonth0 (t : Timestamp) : ℤ := (civilFromDays (tsDayIndex t)).2.1 - 1

/-- Zero-padded two-digit rendering of a small non-negative integer. -/
def pad2 (n : ℤ) : String :=
  if n < 10 then "0" ++ toString n else toString n

/-- date-fns format HH:mm. -/
def formatHHMM (t : Timestamp) : String :=
  pad2 (tsHour t) ++ ":" ++ pad2 (tsMinute t)

/-- date-fns format yyyy-MM-dd of the day containing a timestamp. -/
def formatDayKey (t : Timestamp) : String :=
  let c := civilFromDays (tsDayIndex t)
  toString c.1 ++ "-" ++ pad2 c.2.1 ++ "-" ++ pad2 c.2.2

/-- One consumption reading: kWh over the interval from start to endT. -/
structure ConsumptionDataPoint where
  consumption : ℚ
  start : Timestamp
  endT : Timestamp
deriving DecidableEq

/-- A tariff rate window, with HH:mm time-of-day boundary strings. -/
structure RatePeriod where
  id : String
  name : String
  startTime : String
  endTime : String
  ratePerKwh : ℚ
deriving DecidableEq

/-- Placeholder rate period: the JS sources dereference undefined and throw
when the rate list is empty, a situation no claim exercises; the total
model returns this record there instead. -/
def defaultRatePeriod : RatePeriod :=
  { id := "", name := "", startTime := "", endTime := "", ratePerKwh := 0 }

/-- Battery operating envelope (batterySimulator.ts BatteryConfig). -/
structure BatteryConfig where
  capacity : ℚ
  chargeRate : ℚ
  dischargeRate : ℚ
  roundtripEfficiency : ℚ
  cost : Option ℚ := none
  minimumSoc : Option ℚ := none
  maximumSoc : Option ℚ := none
deriving DecidableEq

/-- Panel orientation (six compass values of SolarConfig). -/
inductive PanelOrientation where
  | south | east | west | north | southEast | southWest
deriving DecidableEq

/-- Solar system configuration (SolarConfig). -/
structure SolarConfig where
  capacity : ℚ
  panelEfficiency : ℚ
  systemEfficiency : ℚ
  orientation : PanelOrientation
  tilt : ℚ
  cost : Option ℚ := none
  exportRate : Option ℚ := none
  predictedAnnualOutput : Option ℚ := none
deriving DecidableEq

/-- Lexicographic strict comparison of character lists by code unit,
matching the JS relational operators on strings. -/
def charsLt : List Char → List Char → Bool
  | [], [] => false
  | [], _ :: _ => true
  | _ :: _, [] => false
  | a :: as, b :: bs =>
      if a.val < b.val then true
      else if b.val < a.val then false
      else charsLt as bs

/-- The JS string comparison a < b (lexicographic by code unit). -/
def strLt (a b : String) : Bool := charsLt a.data b.data

/-- The JS string comparison a <= b, which is the negation of b < a. -/
def strLe (a b : String) : Bool := !strLt b a

/-- isTimeInRange from the pricing calculator: containment of an HH:mm
string in a rate window, wrapping midnight when startTime > endTime
(lexical string comparison, as in the JS source). -/
def isTimeInRange (time startTime endTime : String) : Bool :=
  if strLt endTime startTime then
    strLe startTime time || strLt time endTime
  else
    strLe startTime time && strLt time endTime

/-- matchRatePeriod: first rate period containing the timestamp's HH:mm
time, else the first period of the list; none only on an empty list (where
the JS function yields undefined). -/
def matchRatePeriod (timestamp : Timestamp) (ratePeriods : List RatePeriod) :
    Option RatePeriod :=
  let time := formatHHMM timestamp
  match ratePeriods.find? (fun p => isTimeInRange time p.startTime p.endTime) with
  | some p => some p
  | none => ratePeriods.head?

/-- Total variant of matchRatePeriod used by the simulators, which in JS
immediately dereference the result (throwing on an empty rate list). -/
def matchRatePeriodD (timestamp : Timestamp) (ratePeriods : List RatePeriod) :
    RatePeriod :=
  (matchRatePeriod timestamp ratePeriods).getD defaultRatePeriod

/-- calculateTotalCost: sum of consumption times matched rate over the
series (a reduce in the source). -/
def calculateTotalCost (data : List ConsumptionDataPoint)
    (ratePeriods : List RatePeriod) : ℚ :=
  data.foldl
    (fun total point =>
      total + point.consumption * (matchRatePeriodD point.start ratePeriods).ratePerKwh)
    0

/-- Time frames accepted by aggregateByTimeFrame. -/
inductive TimeFrame where
  | day | week | month | year | all
deriving DecidableEq

/-- Optional date-range filter of aggregateByTimeFrame. -/
structure DateRange where
  start : Timestamp
  endT : Timestamp
deriving DecidableEq

/-- One aggregation bucket (csvParser.ts AggregatedData). -/
structure AggregatedData where
  period : String
  totalConsumption : ℚ
  averageConsumption : JsNum
  peakConsumption : JsNum
  peakTime : Option Timestamp
  dataPointCount : ℕ
deriving DecidableEq

/-- Insert an item into the group for its key, appending a fresh group at
the end when the key is new — the JS Map get-push/set idiom of groupBy,
which preserves first-seen key order and in-group insertion order. -/
def addToGroup (groups : List (String × List ConsumptionDataPoint))
    (key : String) (item : ConsumptionDataPoint) :
    List (String × List ConsumptionDataPoint) :=
  match groups with
  | [] => [(key, [item])]
  | (k, g) :: rest =>
      if k = key then (k, g ++ [item]) :: rest
      else (k, g) :: addToGroup rest key item

/-- groupBy helper of csvParser.ts, specialized to consumption points. -/
def groupByKey (keyFn : ConsumptionDataPoint → String)
    (items : List ConsumptionDataPoint) :
    List (String × List ConsumptionDataPoint) :=
  items.foldl (fun gs it => addToGroup gs (keyFn it) it) []

/-- createAggregatedData: totals, average, peak (with its timestamp) and
count for one bucket of points. -/
def createAggregatedData (period : String) (points : List ConsumptionDataPoint) :
    AggregatedData :=
  let totalConsumption := points.foldl (fun s p => s + p.consumption) 0
  let peakConsumption := jsMaxList (points.map (fun p => p.consumption))
  let peakPoint := points.find? (fun p => JsNum.fin p.consumption = peakConsumption)
  { period := period
    totalConsumption := totalConsumption
    averageConsumption := JsNum.div (.fin totalConsumption) (.fin (points.length : ℚ))
    peakConsumption := peakConsumption
    peakTime := peakPoint.map (fun p => p.start)
    dataPointCount := points.length }

/-- English month abbreviations used by the date-fns MMM format token. -/
def monthAbbrev (m : ℤ) : String :=
  (["Jan", "Feb", "Mar", "Apr", "May", "Jun", "Jul", "Aug", "Sep", "Oct",
    "Nov", "Dec"].getD (m - 1).toNat "Jan")

/-- date-fns format yyyy-MM-dd of a day index. -/
def formatCivilDay (d : ℤ) : String :=
  let c := civilFromDays d
  toString c.1 ++ "-" ++ pad2 c.2.1 ++ "-" ++ pad2 c.2.2

/-- Monday-anchored start of week of a day index (date-fns startOfWeek with
weekStartsOn 1; day 0 of the epoch was a Thursday). -/
def startOfWeekDay (d : ℤ) : ℤ :=
  let dow := (d + 4).emod 7
  d - (if dow = 0 then 6 else dow - 1)

/-- aggregateByDay: group by calendar date, aggregate, sort by period. -/
def aggregateByDay (data : List ConsumptionDataPoint) : List AggregatedData :=
  ((groupByKey (fun p => formatDayKey p.start) data).map
      (fun g => createAggregatedData g.1 g.2)).mergeSort
    (fun a b => strLe a.period b.period)

/-- aggregateByWeek: group by Monday week start, label Week of yyyy-MM-dd. -/
def aggregateByWeek (data : List ConsumptionDataPoint) : List AggregatedData :=
  ((groupByKey (fun p => formatCivilDay (startOfWeekDay (tsDayIndex p.start))) data).map
      (fun g => createAggregatedData ("Week of " ++ g.1) g.2)).mergeSort
    (fun a b => strLe a.period b.period)

/-- date-fns format yyyy-MM of the month containing a timestamp. -/
def formatMonthKey (t : Timestamp) : String :=
  let c := civilFromDays (tsDayIndex t)
  toString c.1 ++ "-" ++ pad2 c.2.1

/-- Month label MMM yyyy derived from the yyyy-MM key (the source reparses
the key with new Date and formats it; the result is the same label). -/
def monthLabelOf (t : Timestamp) : String :=
  let c := civilFromDays (tsDayIndex t)
  monthAbbrev c.2.1 ++ " " ++ toString c.1

/-- aggregateByMonth: group by yyyy-MM, label MMM yyyy, sort by label. -/
def aggregateByMonth (data : List ConsumptionDataPoint) : List AggregatedData :=
  ((groupByKey (fun p => formatMonthKey p.start) data).map
      (fun g =>
        createAggregatedData
          ((g.2.head?.map (fun p => monthLabelOf p.start)).getD g.1) g.2)).mergeSort
    (fun a b => strLe a.period b.period)

/-- aggregateByYear: group by yyyy. -/
def aggregateByYear (data : List ConsumptionDataPoint) : List AggregatedData :=
  ((groupByKey (fun p => toString (civilFromDays (tsDayIndex p.start)).1) data).map
      (fun g => createAggregatedData g.1 g.2)).mergeSort
    (fun a b => strLe a.period b.period)

/-- date-fns format MMM dd, yyyy. -/
def formatMDY (t : Timestamp) : String :=
  let c := civilFromDays (tsDayIndex t)
  monthAbbrev c.2.1 ++ " " ++ pad2 c.2.2 ++ ", " ++ toString c.1

/-- differenceInDays of date-fns: whole days between two instants,
truncated toward zero. -/
def differenceInDays (a b : Timestamp) : ℤ := Int.tdiv (a - b) 1440

/-- aggregateAll: the whole series as a single labelled bucket (the source
indexes data[0] and is only called on non-empty input). -/
def aggregateAll (data : List ConsumptionDataPoint) : AggregatedData :=
  let first := data.head?.getD { consumption := 0, start := 0, endT := 0 }
  let last := data.getLast?.getD { consumption := 0, start := 0, endT := 0 }
  let days := differenceInDays last.endT first.start
  createAggregatedData
    (formatMDY first.start ++ " - " ++ formatMDY last.endT ++ " (" ++
      toString days ++ " days)") data

/-- aggregateByTimeFrame: optional date filter, empty short-circuit, then
dispatch on the time frame. -/
def aggregateByTimeFrame (data : List ConsumptionDataPoint) (frame : TimeFrame)
    (dateRange : Option DateRange) : List AggregatedData :=
  let filteredData :=
    match dateRange with
    | some r => data.filter (fun p => decide (r.start ≤ p.start) && decide (p.start ≤ r.endT))
    | none => data
  if filteredData.isEmpty then []
  else
    match frame with
    | .day => aggregateByDay filteredData
    | .week => aggregateByWeek filteredData
    | .month => aggregateByMonth filteredData
    | .year => aggregateByYear filteredData
    | .all => [aggregateAll filteredData]

/-- Math.max over a non-empty list of rationals (empty case unreachable in
the statistics path, which guards against empty input). -/
def qMaxList (l : List ℚ) : ℚ :=
  match l with
  | [] => 0
  | x :: xs => xs.foldl max x

/-- Dataset statistics (csvParser.ts calculateStatistics result). The
source stores Math.sqrt of the population variance; the square root of a
rational is irrational in general, so the squared value is kept — no claim
depends on the standard deviation. -/
structure Stats where
  totalConsumption : ℚ
  averageConsumption : ℚ
  minConsumption : ℚ
  maxConsumption : ℚ
  medianConsumption : ℚ
  variancePopulation : ℚ
  dataPoints : ℕ
  dateRangeStart : Timestamp
  dateRangeEnd : Timestamp
deriving DecidableEq

/-- calculateStatistics: null for an empty series, otherwise total, mean,
min, max, median (sorted-copy midpoint) and population variance. -/
def calculateStatistics (data : List ConsumptionDataPoint) : Option Stats :=
  if data.isEmpty then none
  else
    let consumptions := data.map (fun p => p.consumption)
    let total := consumptions.foldl (fun s c => s + c) 0
    let average := total / (consumptions.length : ℚ)
    let sorted := consumptions.mergeSort (fun a b => decide (a ≤ b))
    let mid := sorted.length / 2
    let median :=
      if sorted.length % 2 = 0 then (sorted.getD (mid - 1) 0 + sorted.getD mid 0) / 2
      else sorted.getD mid 0
    let variance :=
      (consumptions.foldl (fun s c => s + (c - average) ^ 2) 0) / (consumptions.length : ℚ)
    some
      { totalConsumption := total
        averageConsumption := average
        minConsumption := qMinList consumptions
        maxConsumption := qMaxList consumptions
        medianConsumption := median
        variancePopulation := variance
        dataPoints := data.length
        dateRangeStart := (data.head?.getD { consumption := 0, start := 0, endT := 0 }).start
        dateRangeEnd := (data.getLast?.getD { consumption := 0, start := 0, endT := 0 }).endT }

/-- Battery action of one simulated interval. -/
inductive BatAction where
  | charging | discharging | idle
deriving DecidableEq

/-- Per-interval battery snapshot (BatteryState). -/
structure BatteryState where
  timestamp : Timestamp
  stateOfCharge : ℚ
  socPercentage : ℚ
  action : BatAction
  powerFlow : ℚ
deriving DecidableEq

/-- Interval duration in hours as every simulator derives it:
differenceInHours(end, start) with roundingMethod round (Math.round of the
exact hour difference), replaced by 0.5 when that result is 0 (the JS
or-default also fires on NaN from invalid dates, which have no
counterpart in this model). -/
def intervalHours (point : ConsumptionDataPoint) : ℚ :=
  let r := jsRound (((point.endT - point.start : ℤ) : ℚ) / 60)
  if r = 0 then 1/2 else (r : ℚ)

/-- Effective minimum state of charge in kWh: (minimumSoc or 10)% of
capacity, 0 treated as unset by the JS or-default. -/
def effMinSoc (cfg : BatteryConfig) : ℚ :=
  jsOr cfg.minimumSoc 10 / 100 * cfg.capacity

/-- Effective maximum state of charge in kWh: (maximumSoc or 100)% of
capacity. -/
def effMaxSoc (cfg : BatteryConfig) : ℚ :=
  jsOr cfg.maximumSoc 100 / 100 * cfg.capacity

/-- Battery cost used for payback: the configured cost, defaulting to
capacity * 500 when unset (or set to the falsy 0). -/
def effBatteryCost (cfg : BatteryConfig) : ℚ :=
  jsOr cfg.cost (cfg.capacity * 500)

/-- The post-step clamp of the state of charge to the configured window. -/
def clampSoc (minSoc maxSoc soc : ℚ) : ℚ := max minSoc (min maxSoc soc)

/-- Lookup in the insertion-ordered association list modelling a JS Map. -/
def mapGetQ (m : List (String × ℚ)) (k : String) : Option ℚ :=
  (m.find? (fun e => e.1 = k)).map (fun e => e.2)

/-- Update in the association list modelling a JS Map: overwrite in place,
else append. -/
def mapSetQ (m : List (String × ℚ)) (k : String) (v : ℚ) :
    List (String × ℚ) :=
  match m with
  | [] => [(k, v)]
  | (k', v') :: rest =>
      if k' = k then (k, v) :: rest else (k', v') :: mapSetQ rest k v

/-- Loop state of simulateBattery. -/
structure BatteryAcc where
  soc : ℚ
  states : List BatteryState
  totalSavings : ℚ
  savingsByRate : List (String × ℚ)
deriving DecidableEq

/-- Loop body of simulateBattery, lambda-lifted over the values the JS
closure reads (configuration rates, SoC window, cheapest period). -/
def batteryStep (chargeRate dischargeRate roundtripEfficiency minSoc maxSoc
    capacity : ℚ) (cheapId : String) (cheapRate : ℚ)
    (ratePeriods : List RatePeriod) (acc : BatteryAcc)
    (point : ConsumptionDataPoint) : BatteryAcc :=
  let currentRate := matchRatePeriodD point.start ratePeriods
  let h := intervalHours point
  let (soc1, action, powerFlow, periodSavings) :=
    if currentRate.id = cheapId ∧ acc.soc < maxSoc then
      let maxChargeAmount :=
        min (min (maxSoc - acc.soc) (chargeRate * h)) point.consumption
      if 0 < maxChargeAmount then
        (acc.soc + maxChargeAmount * (roundtripEfficiency / 100),
         BatAction.charging, maxChargeAmount / h,
         -(maxChargeAmount * currentRate.ratePerKwh))
      else (acc.soc, BatAction.idle, 0, 0)
    else if cheapRate < currentRate.ratePerKwh ∧ minSoc < acc.soc then
      let maxDischargeAmount :=
        min (min (acc.soc - minSoc) (dischargeRate * h)) point.consumption
      if 0 < maxDischargeAmount then
        (acc.soc - maxDischargeAmount, BatAction.discharging,
         -(maxDischargeAmount / h),
         maxDischargeAmount * (currentRate.ratePerKwh - cheapRate))
      else (acc.soc, BatAction.idle, 0, 0)
    else (acc.soc, BatAction.idle, 0, 0)
  let soc2 := clampSoc minSoc maxSoc soc1
  { soc := soc2
    states := acc.states ++
      [{ timestamp := point.start, stateOfCharge := soc2,
         socPercentage := soc2 / capacity * 100, action := action,
         powerFlow := powerFlow }]
    totalSavings := acc.totalSavings + periodSavings
    savingsByRate :=
      mapSetQ acc.savingsByRate currentRate.id
        (jsOr (mapGetQ acc.savingsByRate currentRate.id) 0 + periodSavings) }

/-- Winter coverage summary of simulateBattery. The worst day is the
timestamp the JS code keeps (data[0].start initially, the parsed day key
on update); none models the arbitrary current-date placeholder returned
for empty input. -/
structure WinterCoverage where
  averageDailyCoverage : ℚ
  minimumCoverage : ℚ
  worstDay : Option Timestamp
deriving DecidableEq

/-- Group the (point, state) pairs by the day of the point, preserving
insertion order, as calculateWinterCoverage does with a JS Map keyed by
the ISO string of startOfDay. -/
def addToDayGroup (groups : List (String × List (ConsumptionDataPoint × BatteryState)))
    (key : String) (item : ConsumptionDataPoint × BatteryState) :
    List (String × List (ConsumptionDataPoint × BatteryState)) :=
  match groups with
  | [] => [(key, [item])]
  | (k, g) :: rest =>
      if k = key then (k, g ++ [item]) :: rest
      else (k, g) :: addToDayGroup rest key item

/-- calculateWinterCoverage: per-day battery coverage of consumption, with
running total, minimum and worst day. -/
def calculateWinterCoverage (data : List ConsumptionDataPoint)
    (states : List BatteryState) : WinterCoverage :=
  if data.isEmpty then
    { averageDailyCoverage := 0, minimumCoverage := 0, worstDay := none }
  else
    let pairs := data.zip states
    let dayGroups :=
      pairs.foldl (fun gs pr => addToDayGroup gs (formatDayKey pr.1.start) pr) []
    let init : ℚ × ℚ × Option Timestamp :=
      (0, 100, (data.head?.map (fun p => p.start)))
    let final :=
      dayGroups.foldl
        (fun (st : ℚ × ℚ × Option Timestamp) g =>
          let dayConsumption : ℚ := g.2.foldl (fun s pr => s + pr.1.consumption) 0
          let batteryProvided : ℚ :=
            ((g.2.map (fun pr => pr.2)).filter
                (fun s => s.action = BatAction.discharging)).foldl
              (fun s st' => s + |st'.powerFlow| * (1/2)) 0
          let coverage :=
            if 0 < dayConsumption then batteryProvided / dayConsumption * 100
            else 0
          let totalCoverage := st.1 + coverage
          if coverage < st.2.1 then
            (totalCoverage, coverage,
             some (tsDayIndex (g.2.head?.map (fun pr => pr.1.start) |>.getD 0) * 1440))
          else (totalCoverage, st.2.1, st.2.2))
        init
    { averageDailyCoverage := final.1 / (dayGroups.length : ℚ)
      minimumCoverage := final.2.1
      worstDay := final.2.2 }

/-- Result of simulateBattery (BatteryAnalysis). -/
structure BatteryAnalysis where
  batteryConfig : BatteryConfig
  totalSavings : ℚ
  dailyAverageSavings : JsNum
  annualEstimate : JsNum
  paybackPeriod : JsNum
  selfConsumptionRate : JsNum
  peakShavingBenefit : JsNum
  states : List BatteryState
  savingsByRate : List (String × ℚ)
  winterCoverage : WinterCoverage
deriving DecidableEq

/-- simulateBattery: cheapest-rate charge / expensive-rate discharge walk
over the series, then the aggregate outputs. -/
def simulateBattery (data : List ConsumptionDataPoint)
    (batteryConfig : BatteryConfig) (ratePeriods : List RatePeriod) :
    BatteryAnalysis :=
  let minSoc := effMinSoc batteryConfig
  let maxSoc := effMaxSoc batteryConfig
  let cheapRate := qMinList (ratePeriods.map (fun p => p.ratePerKwh))
  let cheapPeriod :=
    (ratePeriods.find? (fun p => p.ratePerKwh = cheapRate)).getD defaultRatePeriod
  let init : BatteryAcc :=
    { soc := 0, states := [], totalSavings := 0,
      savingsByRate := ratePeriods.foldl (fun m p => mapSetQ m p.id 0) [] }
  let final :=
    data.foldl
      (batteryStep batteryConfig.chargeRate batteryConfig.dischargeRate
        batteryConfig.roundtripEfficiency minSoc maxSoc
        batteryConfig.capacity cheapPeriod.id cheapRate ratePeriods)
      init
  let days : ℚ := (data.length : ℚ) / 48
  let dailyAverageSavings := JsNum.div (.fin final.totalSavings) (.fin days)
  let annualEstimate := JsNum.mul dailyAverageSavings (.fin 365)
  let batteryCost := effBatteryCost batteryConfig
  let paybackPeriod :=
    if annualEstimate.gtZero then JsNum.div (.fin batteryCost) annualEstimate
    else JsNum.posInf
  let totalDischargeEnergy :=
    (final.states.filter (fun s => s.action = BatAction.discharging)).foldl
      (fun s st => s + |st.powerFlow| * (1/2)) 0
  let totalConsumption := data.foldl (fun s p => s + p.consumption) 0
  let selfConsumptionRate :=
    JsNum.mul (JsNum.div (.fin totalDischargeEnergy) (.fin totalConsumption)) (.fin 100)
  let peakWithoutBattery := jsMaxList (data.map (fun p => p.consumption))
  let peakShavingBenefit := JsNum.mul peakWithoutBattery (.fin (1/5))
  { batteryConfig := batteryConfig
    totalSavings := final.totalSavings
    dailyAverageSavings := dailyAverageSavings
    annualEstimate := annualEstimate
    paybackPeriod := paybackPeriod
    selfConsumptionRate := selfConsumptionRate
    peakShavingBenefit := peakShavingBenefit
    states := final.states
    savingsByRate := final.savingsByRate
    winterCoverage := calculateWinterCoverage data final.states }

/-- Orientation multiplier table of estimateGeneration (the JS or-default
to 1.0 is unreachable: all six enum values are present and non-zero). -/
def orientationFactor : PanelOrientation → ℚ
  | .south => 1
  | .southEast => 9/10
  | .southWest => 9/10
  | .east => 7/10
  | .west => 7/10
  | .north => 1/2

/-- Monthly peak sun hours table, January to December. -/
def peakSunHours : List ℚ :=
  [1, 3/2, 5/2, 4, 5, 11/2, 5, 9/2, 7/2, 5/2, 3/2, 1]

/-- estimateGeneration: instantaneous solar output in kW for a timestamp,
configuration and scaling factor. -/
def estimateGeneration (timestamp : Timestamp) (config : SolarConfig)
    (scalingFactor : ℚ) : ℚ :=
  let hour := tsHour timestamp
  let month := tsMonth0 timestamp
  if 6 ≤ hour ∧ hour ≤ 20 then
    let monthPeakHours := peakSunHours.getD month.toNat 0
    let hourFromNoon : ℚ := |(13 : ℚ) - (hour : ℚ)|
    let elevationFactor := max 0 (1 - (hourFromNoon / 7) ^ 2)
    let tiltFactor := 1 - |config.tilt - 35| / 100
    let generation :=
      config.capacity * (monthPeakHours / (11/2)) * elevationFactor *
        orientationFactor config.orientation * tiltFactor *
        (config.panelEfficiency / 20) * (config.systemEfficiency / 100) *
        scalingFactor
    max 0 generation
  else 0

/-- First pass of the estimator at scale 1.0 over the series: total kWh
accumulated by calculateScalingFactor before annualizing. -/
def firstPassTotal (data : List ConsumptionDataPoint) (config : SolarConfig) : ℚ :=
  data.foldl
    (fun acc point => acc + estimateGeneration point.start config 1 * intervalHours point)
    0

/-- calculateScalingFactor: 1.0 without a (truthy) predictedAnnualOutput
or when the first-pass estimate is exactly zero, else the target divided
by the annualized first-pass estimate. -/
def calculateScalingFactor (data : List ConsumptionDataPoint)
    (config : SolarConfig) : ℚ :=
  match config.predictedAnnualOutput with
  | none => 1
  | some p =>
      if p = 0 then 1
      else
        let estimatedTotal := firstPassTotal data config
        if estimatedTotal = 0 then 1
        else
          let datasetDays := (data.length : ℚ) / 48
          let annualizedEstimate := estimatedTotal / datasetDays * 365
          p / annualizedEstimate

/-- Per-interval solar snapshot (SolarGeneration). -/
structure SolarGeneration where
  timestamp : Timestamp
  generation : ℚ
  consumed : ℚ
  exported : ℚ
  batteryCharged : ℚ
deriving DecidableEq

/-- Loop state of simulateSolar. -/
structure SolarAcc where
  totalGeneration : ℚ
  totalExported : ℚ
  totalSelfConsumed : ℚ
  exportEarnings : ℚ
  importSavings : ℚ
  generations : List SolarGeneration
deriving DecidableEq

/-- Loop body of simulateSolar. -/
def solarStep (config : SolarConfig) (ratePeriods : List RatePeriod)
    (exportRate scalingFactor : ℚ) (acc : SolarAcc)
    (point : ConsumptionDataPoint) : SolarAcc :=
  let h := intervalHours point
  let currentRate := matchRatePeriodD point.start ratePeriods
  let generationKw := estimateGeneration point.start config scalingFactor
  let generationKwh := generationKw * h
  let consumptionKwh := point.consumption
  let consumed := min generationKwh consumptionKwh
  let exported := max 0 (generationKwh - consumptionKwh)
  { totalGeneration := acc.totalGeneration + generationKwh
    totalExported := acc.totalExported + exported
    totalSelfConsumed := acc.totalSelfConsumed + consumed
    exportEarnings := acc.exportEarnings + exported * exportRate
    importSavings := acc.importSavings + consumed * currentRate.ratePerKwh
    generations := acc.generations ++
      [{ timestamp := point.start, generation := generationKw,
         consumed := consumed / h, exported := exported / h,
         batteryCharged := 0 }] }

/-- Result of simulateSolar (SolarAnalysis). -/
structure SolarAnalysis where
  solarConfig : SolarConfig
  totalGeneration : ℚ
  totalExported : ℚ
  totalSelfConsumed : ℚ
  exportEarnings : ℚ
  importSavings : ℚ
  totalSavings : ℚ
  dailyAverageSavings : JsNum
  annualEstimate : JsNum
  paybackPeriod : JsNum
  selfConsumptionRate : ℚ
  generations : List SolarGeneration
deriving DecidableEq

/-- simulateSolar: scaled generation estimate per interval, split into
self-consumption and export, with financial aggregates. -/
def simulateSolar (data : List ConsumptionDataPoint) (solarConfig : SolarConfig)
    (ratePeriods : List RatePeriod) (exportRate : ℚ) : SolarAnalysis :=
  let scalingFactor := calculateScalingFactor data solarConfig
  let final :=
    data.foldl (solarStep solarConfig ratePeriods exportRate scalingFactor)
      { totalGeneration := 0, totalExported := 0, totalSelfConsumed := 0,
        exportEarnings := 0, importSavings := 0, generations := [] }
  let totalSavings := final.exportEarnings + final.importSavings
  let days : ℚ := (data.length : ℚ) / 48
  let dailyAverageSavings := JsNum.div (.fin totalSavings) (.fin days)
  let annualEstimate := JsNum.mul dailyAverageSavings (.fin 365)
  let systemCost := jsOr solarConfig.cost (solarConfig.capacity * 1200)
  let paybackPeriod :=
    if annualEstimate.gtZero then JsNum.div (.fin systemCost) annualEstimate
    else JsNum.posInf
  let selfConsumptionRate :=
    if 0 < final.totalGeneration then
      final.totalSelfConsumed / final.totalGeneration * 100
    else 0
  { solarConfig := solarConfig
    totalGeneration := final.totalGeneration
    totalExported := final.totalExported
    totalSelfConsumed := final.totalSelfConsumed
    exportEarnings := final.exportEarnings
    importSavings := final.importSavings
    totalSavings := totalSavings
    dailyAverageSavings := dailyAverageSavings
    annualEstimate := annualEstimate
    paybackPeriod := paybackPeriod
    selfConsumptionRate := selfConsumptionRate
    generations := final.generations }

/-- Loop state of simulateSolarWithBattery. -/
structure CombinedAcc where
  soc : ℚ
  totalGeneration : ℚ
  totalExported : ℚ
  totalSelfConsumed : ℚ
  totalBatteryCharged : ℚ
  totalBatteryDischarged : ℚ
  exportEarnings : ℚ
  importSavings : ℚ
  generations : List SolarGeneration
  batteryStates : List BatteryState
deriving DecidableEq

/-- Loop body of simulateSolarWithBattery: direct solar use, then battery
charge from surplus solar, then discharge outside the cheap period, then
opportunistic grid charge in the cheap period, then export of the rest. -/
def combinedStep (chargeRate dischargeRate roundtripEfficiency minSoc maxSoc
    capacity : ℚ) (cheapId : String) (solarConfig : SolarConfig)
    (ratePeriods : List RatePeriod) (exportRate scalingFactor : ℚ)
    (acc : CombinedAcc) (point : ConsumptionDataPoint) : CombinedAcc :=
  let h := intervalHours point
  let currentRate := matchRatePeriodD point.start ratePeriods
  let isCheapPeriod := currentRate.id = cheapId
  let generationKw := estimateGeneration point.start solarConfig scalingFactor
  let generationKwh := generationKw * h
  let consumptionKwh := point.consumption
  let availableSolar0 := generationKwh
  let remainingDemand0 := consumptionKwh
  let directUse := min availableSolar0 remainingDemand0
  let consumed0 := directUse
  let availableSolar1 := availableSolar0 - directUse
  let remainingDemand1 := remainingDemand0 - directUse
  let (soc1, batteryCharged, availableSolar2, action1, powerFlow1) :=
    if 0 < availableSolar1 ∧ acc.soc < maxSoc then
      let maxCharge := min (min (maxSoc - acc.soc) (chargeRate * h)) availableSolar1
      (acc.soc + maxCharge * (roundtripEfficiency / 100), maxCharge,
       availableSolar1 - maxCharge, BatAction.charging, maxCharge / h)
    else (acc.soc, 0, availableSolar1, BatAction.idle, 0)
  let (soc2, batteryDischarged, consumed1, action2, powerFlow2) :=
    if 0 < remainingDemand1 ∧ minSoc < soc1 ∧ ¬ isCheapPeriod then
      let maxDischarge := min (min (soc1 - minSoc) (dischargeRate * h)) remainingDemand1
      (soc1 - maxDischarge, maxDischarge, consumed0 + maxDischarge,
       BatAction.discharging, -(maxDischarge / h))
    else (soc1, 0, consumed0, action1, powerFlow1)
  let (soc3, action3, powerFlow3) :=
    if isCheapPeriod ∧ soc2 < maxSoc ∧ action2 = BatAction.idle then
      let maxGridCharge := min (maxSoc - soc2) (chargeRate * h)
      (soc2 + maxGridCharge * (roundtripEfficiency / 100), BatAction.charging,
       maxGridCharge / h)
    else (soc2, action2, powerFlow2)
  let exported := availableSolar2
  let soc4 := clampSoc minSoc maxSoc soc3
  { soc := soc4
    totalGeneration := acc.totalGeneration + generationKwh
    totalExported := acc.totalExported + exported
    totalSelfConsumed := acc.totalSelfConsumed + consumed1
    totalBatteryCharged := acc.totalBatteryCharged + batteryCharged
    totalBatteryDischarged := acc.totalBatteryDischarged + batteryDischarged
    exportEarnings := acc.exportEarnings + exported * exportRate
    importSavings := acc.importSavings + consumed1 * currentRate.ratePerKwh
    generations := acc.generations ++
      [{ timestamp := point.start, generation := generationKw,
         consumed := consumed1 / h, exported := exported / h,
         batteryCharged := batteryCharged / h }]
    batteryStates := acc.batteryStates ++
      [{ timestamp := point.start, stateOfCharge := soc4,
         socPercentage := soc4 / capacity * 100, action := action3,
         powerFlow := powerFlow3 }] }

/-- Result of simulateSolarWithBattery (CombinedAnalysis). -/
structure CombinedAnalysis where
  solarConfig : SolarConfig
  batteryConfig : BatteryConfig
  totalGeneration : ℚ
  totalExported : ℚ
  totalSelfConsumed : ℚ
  totalBatteryCharged : ℚ
  totalBatteryDischarged : ℚ
  exportEarnings : ℚ
  importSavings : ℚ
  totalSavings : ℚ
  dailyAverageSavings : JsNum
  annualEstimate : JsNum
  paybackPeriod : JsNum
  selfSufficiencyRate : ℚ
  generations : List SolarGeneration
  batteryStates : List BatteryState
deriving DecidableEq

/-- simulateSolarWithBattery: combined dispatch walk plus aggregates. -/
def simulateSolarWithBattery (data : List ConsumptionDataPoint)
    (solarConfig : SolarConfig) (batteryConfig : BatteryConfig)
    (ratePeriods : List RatePeriod) (exportRate : ℚ) : CombinedAnalysis :=
  let minSoc := effMinSoc batteryConfig
  let maxSoc := effMaxSoc batteryConfig
  let cheapRate := qMinList (ratePeriods.map (fun p => p.ratePerKwh))
  let cheapPeriod :=
    (ratePeriods.find? (fun p => p.ratePerKwh = cheapRate)).getD defaultRatePeriod
  let scalingFactor := calculateScalingFactor data solarConfig
  let final :=
    data.foldl
      (combinedStep batteryConfig.chargeRate batteryConfig.dischargeRate
        batteryConfig.roundtripEfficiency minSoc maxSoc
        batteryConfig.capacity cheapPeriod.id solarConfig ratePeriods
        exportRate scalingFactor)
      { soc := 0, totalGeneration := 0, totalExported := 0,
        totalSelfConsumed := 0, totalBatteryCharged := 0,
        totalBatteryDischarged := 0, exportEarnings := 0, importSavings := 0,
        generations := [], batteryStates := [] }
  let totalSavings := final.exportEarnings + final.importSavings
  let days : ℚ := (data.length : ℚ) / 48
  let dailyAverageSavings := JsNum.div (.fin totalSavings) (.fin days)
  let annualEstimate := JsNum.mul dailyAverageSavings (.fin 365)
  let systemCost :=
    jsOr solarConfig.cost (solarConfig.capacity * 1200) +
      jsOr batteryConfig.cost (batteryConfig.capacity * 500)
  let paybackPeriod :=
    if annualEstimate.gtZero then JsNum.div (.fin systemCost) annualEstimate
    else JsNum.posInf
  let totalConsumption := data.foldl (fun s p => s + p.consumption) 0
  let selfSufficiencyRate :=
    if 0 < totalConsumption then
      (final.totalSelfConsumed + final.totalBatteryDischarged) /
        totalConsumption * 100
    else 0
  { solarConfig := solarConfig
    batteryConfig := batteryConfig
    totalGeneration := final.totalGeneration
    totalExported := final.totalExported
    totalSelfConsumed := final.totalSelfConsumed
    totalBatteryCharged := final.totalBatteryCharged
    totalBatteryDischarged := final.totalBatteryDischarged
    exportEarnings := final.exportEarnings
    importSavings := final.importSavings
    totalSavings := totalSavings
    dailyAverageSavings := dailyAverageSavings
    annualEstimate := annualEstimate
    paybackPeriod := paybackPeriod
    selfSufficiencyRate := selfSufficiencyRate
    generations := final.generations
    batteryStates := final.batteryStates }

/-- One half-hour interval of the worked example day: 0.5 kWh from minute
30k to minute 30(k+1) of 2024-01-01 (day 19723 of the epoch). -/
def exampleInterval (k : ℕ) : ConsumptionDataPoint :=
  { consumption := 1/2, start := 28401120 + 30 * (k : ℤ),
    endT := 28401120 + 30 * (k : ℤ) + 30 }

/-- The worked example day: 48 half-hour intervals of 0.5 kWh each. -/
def exampleDayData : List ConsumptionDataPoint :=
  (List.range 48).map exampleInterval

/-- The worked example tariff: cheap 23:30 to 05:30 at 0.07, standard
05:30 to 23:30 at 0.30. -/
def exampleRatePeriods : List RatePeriod :=
  [{ id := "cheap", name := "Off-Peak", startTime := "23:30",
     endTime := "05:30", ratePerKwh := 7/100 },
   { id := "standard", name := "Peak", startTime := "05:30",
     endTime := "23:30", ratePerKwh := 3/10 }]

/-- Window containment exactly as the specification words it, for
comparison with the implementation's isTimeInRange: when
startTime <= endTime (lexically) the window contains the times t with
startTime <= t < endTime, otherwise it wraps midnight and contains the
times with t >= startTime or t < endTime. -/
def windowContainsSpec (time startTime endTime : String) : Bool :=
  if strLe startTime endTime then
    strLe startTime time && strLt time endTime
  else
    strLe startTime time || strLt time endTime

/-- A syntactically well-formed battery configuration whose minimum SoC
percentage exceeds its maximum (90% over 50%). -/
def invertedSocConfig : BatteryConfig :=
  { capacity := 10, chargeRate := 5, dischargeRate := 5,
    roundtripEfficiency := 90, minimumSoc := some 90, maximumSoc := some 50 }

/-- The 10 kWh battery of the worked example scenario. -/
def mediumBatteryConfig : BatteryConfig :=
  { capacity := 10, chargeRate := 5, dischargeRate := 5,
    roundtripEfficiency := 90, cost := some 6000,
    minimumSoc := some 10, maximumSoc := some 100 }

/-- A 4 kW south-facing solar configuration with a predicted annual
output override. -/
def exampleSolarConfig : SolarConfig :=
  { capacity := 4, panelEfficiency := 20, systemEfficiency := 85,
    orientation := PanelOrientation.south, tilt := 35,
    predictedAnnualOutput := some 3000 }

/-! ## Helper lemmas -/

theorem strLe_eq_not_strLt (a b : String) : strLe a b = !strLt b a := rfl

theorem isTimeInRange_eq_windowContainsSpec (time s e : String) :
    isTimeInRange time s e = windowContainsSpec time s e := by
  unfold isTimeInRange windowContainsSpec strLe
  cases h : strLt e s <;> simp [h]

theorem find?_ext {α : Type} (p q : α → Bool) (h : ∀ a, p a = q a) :
    ∀ l : List α, l.find? p = l.find? q := by
  intro l
  induction l with
  | nil => rfl
  | cons x xs ih => simp only [List.find?_cons, h x, ih]

/-! ## Claim theorems -/

/-- Claim C1: for every non-empty list of rate periods and every
timestamp, matchRatePeriod returns the first RatePeriod whose window
contains the timestamp's HH:mm time under lexical string comparison (with
the containment rule of the specification for non-wrapping and wrapping
windows), and falls back to the first period of the list when none
contains it, never failing. -/
theorem matchRatePeriod_first_contained_or_head (t : Timestamp)
    (ps : List RatePeriod) (h : ps ≠ []) :
    matchRatePeriod t ps =
      some ((ps.find? (fun p =>
        windowContainsSpec (formatHHMM t) p.startTime p.endTime)).getD (ps.head h)) := by
  simp only [matchRatePeriod]
  rw [find?_ext
    (fun p => isTimeInRange (formatHHMM t) p.startTime p.endTime)
    (fun p => windowContainsSpec (formatHHMM t) p.startTime p.endTime)
    (fun p => isTimeInRange_eq_windowContainsSpec (formatHHMM t) p.startTime p.endTime)
    ps]
  cases hf : ps.find? (fun p => windowContainsSpec (formatHHMM t) p.startTime p.endTime) with
  | some p => simp
  | none =>
      cases ps with
      | nil => exact absurd rfl h
      | cons a l => simp

/-- Witness for C1 at a concrete timestamp (midnight of the example day)
and the example tariff. -/
theorem matchRatePeriod_first_contained_or_head_witness :
    matchRatePeriod 28401120 exampleRatePeriods =
      some ((exampleRatePeriods.find? (fun p =>
        windowContainsSpec (formatHHMM 28401120) p.startTime p.endTime)).getD
          (exampleRatePeriods.head (by decide))) :=
  matchRatePeriod_first_contained_or_head 28401120 exampleRatePeriods (by decide)

/-- Claim C4 counterexample: on the worked example day (48 half-hour
intervals of 0.5 kWh, cheap 23:30 to 05:30 at 0.07, standard 05:30 to
23:30 at 0.30) calculateTotalCost does not return the claimed
(11 * 0.5 * 0.07) + (37 * 0.5 * 0.30): midnight-side starts 00:00 through
05:00 and the 23:30 start all fall in the wrapping cheap window, so 12
starts are cheap, not 11. -/
theorem totalCost_exampleDay_ne_claimed :
    calculateTotalCost exampleDayData exampleRatePeriods ≠
      11 * (1/2) * (7/100) + 37 * (1/2) * (3/10) := by decide

/-- Claim C4 (amended): on the worked example day exactly 12 interval
starts fall in the cheap window and 36 in the standard window, and
calculateTotalCost returns (12 * 0.5 * 0.07) + (36 * 0.5 * 0.30). -/
theorem totalCost_exampleDay_twelve_cheap :
    calculateTotalCost exampleDayData exampleRatePeriods =
      12 * (1/2) * (7/100) + 36 * (1/2) * (3/10) ∧
    (exampleDayData.map (fun p => p.start)).countP
        (fun t => isTimeInRange (formatHHMM t) "23:30" "05:30") = 12 ∧
    (exampleDayData.map (fun p => p.start)).countP
        (fun t => isTimeInRange (formatHHMM t) "05:30" "23:30") = 36 :=
  ⟨by decide, by decide, by decide⟩

/-- Claim C5 (code-bug evidence): the duration every simulator derives for
a standard 30-minute interval is 1 hour, not the 0.5 hours of end minus
start — differenceInHours with roundingMethod round turns the exact
0.5-hour difference into Math.round(0.5) = 1, and the 0.5 fallback fires
only when the rounded difference is 0. -/
theorem intervalHours_halfHourInterval_is_one :
    intervalHours (exampleInterval 0) = 1 ∧
    intervalHours (exampleInterval 0) ≠ 1/2 :=
  ⟨by decide, by decide⟩

/-- Claim C2 counterexample: with a syntactically well-formed
configuration whose minimum SoC percentage (90) exceeds its maximum (50),
a recorded battery state violates stateOfCharge <= maxSoc, because the
post-step clamp Math.max(minSoc, Math.min(maxSoc, soc)) returns minSoc. -/
theorem socBounds_violated_for_inverted_config :
    ¬ (∀ s ∈ (simulateBattery [exampleInterval 0] invertedSocConfig
          exampleRatePeriods).states,
        effMinSoc invertedSocConfig ≤ s.stateOfCharge ∧
        s.stateOfCharge ≤ effMaxSoc invertedSocConfig) := by decide

theorem clampSoc_bounds (minSoc maxSoc x : ℚ) (h : minSoc ≤ maxSoc) :
    minSoc ≤ clampSoc minSoc maxSoc x ∧ clampSoc minSoc maxSoc x ≤ maxSoc :=
  ⟨le_max_left _ _, max_le h (min_le_left _ _)⟩

theorem batteryStep_states_shape (cr dr eff minSoc maxSoc cap : ℚ)
    (cid : String) (crate : ℚ) (rps : List RatePeriod) (acc : BatteryAcc)
    (point : ConsumptionDataPoint) :
    ∃ soc1 act pf,
      (batteryStep cr dr eff minSoc maxSoc cap cid crate rps acc point).states =
        acc.states ++
          [{ timestamp := point.start,
             stateOfCharge := clampSoc minSoc maxSoc soc1,
             socPercentage := clampSoc minSoc maxSoc soc1 / cap * 100,
             action := act, powerFlow := pf }] := by
  simp only [batteryStep]
  exact ⟨_, _, _, rfl⟩

theorem foldl_batteryStep_bound (cr dr eff minSoc maxSoc cap : ℚ)
    (cid : String) (crate : ℚ) (rps : List RatePeriod)
    (h : minSoc ≤ maxSoc) :
    ∀ (l : List ConsumptionDataPoint) (acc : BatteryAcc),
      (∀ s ∈ acc.states, minSoc ≤ s.stateOfCharge ∧ s.stateOfCharge ≤ maxSoc) →
      ∀ s ∈ (l.foldl (batteryStep cr dr eff minSoc maxSoc cap cid crate rps) acc).states,
        minSoc ≤ s.stateOfCharge ∧ s.stateOfCharge ≤ maxSoc := by
  intro l
  induction l with
  | nil => intro acc hacc; simpa using hacc
  | cons x xs ih =>
      intro acc hacc
      simp only [List.foldl_cons]
      apply ih
      obtain ⟨soc1, act, pf, hst⟩ :=
        batteryStep_states_shape cr dr eff minSoc maxSoc cap cid crate rps acc x
      rw [hst]
      intro s hs
      rcases List.mem_append.mp hs with h1 | h2
      · exact hacc s h1
      · rw [List.mem_singleton.mp h2]
        exact clampSoc_bounds minSoc maxSoc soc1 h

theorem combinedStep_states_shape (cr dr eff minSoc maxSoc cap : ℚ)
    (cid : String) (scfg : SolarConfig) (rps : List RatePeriod)
    (er sf : ℚ) (acc : CombinedAcc) (point : ConsumptionDataPoint) :
    ∃ soc3 act pf,
      (combinedStep cr dr eff minSoc maxSoc cap cid scfg rps er sf acc point).batteryStates =
        acc.batteryStates ++
          [{ timestamp := point.start,
             stateOfCharge := clampSoc minSoc maxSoc soc3,
             socPercentage := clampSoc minSoc maxSoc soc3 / cap * 100,
             action := act, powerFlow := pf }] := by
  simp only [combinedStep]
  exact ⟨_, _, _, rfl⟩

theorem foldl_combinedStep_bound (cr dr eff minSoc maxSoc cap : ℚ)
    (cid : String) (scfg : SolarConfig) (rps : List RatePeriod)
    (er sf : ℚ) (h : minSoc ≤ maxSoc) :
    ∀ (l : List ConsumptionDataPoint) (acc : CombinedAcc),
      (∀ s ∈ acc.batteryStates, minSoc ≤ s.stateOfCharge ∧ s.stateOfCharge ≤ maxSoc) →
      ∀ s ∈ (l.foldl (combinedStep cr dr eff minSoc maxSoc cap cid scfg rps er sf) acc).batteryStates,
        minSoc ≤ s.stateOfCharge ∧ s.stateOfCharge ≤ maxSoc := by
  intro l
  induction l with
  | nil => intro acc hacc; simpa using hacc
  | cons x xs ih =>
      intro acc hacc
      simp only [List.foldl_cons]
      apply ih
      obtain ⟨soc3, act, pf, hst⟩ :=
        combinedStep_states_shape cr dr eff minSoc maxSoc cap cid scfg rps er sf acc x
      rw [hst]
      intro s hs
      rcases List.mem_append.mp hs with h1 | h2
      · exact hacc s h1
      · rw [List.mem_singleton.mp h2]
        exact clampSoc_bounds minSoc maxSoc soc3 h

/-- Claim C2 (amended): whenever the configured window is consistent
(minSoc at most maxSoc after defaulting and scaling to capacity), every
battery state recorded by simulateBattery and by simulateSolarWithBattery
satisfies minSoc <= stateOfCharge <= maxSoc; without that proviso the
claim fails (see the counterexample). -/
theorem soc_within_bounds_of_consistent_window
    (data : List ConsumptionDataPoint) (cfg : BatteryConfig)
    (scfg : SolarConfig) (rps : List RatePeriod) (er : ℚ)
    (h : effMinSoc cfg ≤ effMaxSoc cfg) :
    (∀ s ∈ (simulateBattery data cfg rps).states,
        effMinSoc cfg ≤ s.stateOfCharge ∧ s.stateOfCharge ≤ effMaxSoc cfg) ∧
    (∀ s ∈ (simulateSolarWithBattery data scfg cfg rps er).batteryStates,
        effMinSoc cfg ≤ s.stateOfCharge ∧ s.stateOfCharge ≤ effMaxSoc cfg) := by
  constructor
  · intro s hs
    simp only [simulateBattery] at hs
    refine foldl_batteryStep_bound _ _ _ _ _ _ _ _ _ h data _ ?_ s hs
    intro s' hs'
    simp at hs'
  · intro s hs
    simp only [simulateSolarWithBattery] at hs
    refine foldl_combinedStep_bound _ _ _ _ _ _ _ _ _ _ _ h data _ ?_ s hs
    intro s' hs'
    simp at hs'

/-- Witness for C2 (amended) at the example day, the medium battery and
the example tariff: every recorded state lies in the SoC window. -/
theorem soc_within_bounds_witness :
    ((simulateBattery exampleDayData mediumBatteryConfig
        exampleRatePeriods).states.all
      (fun s => decide (effMinSoc mediumBatteryConfig ≤ s.stateOfCharge) &&
        decide (s.stateOfCharge ≤ effMaxSoc mediumBatteryConfig))) = true := by
  rw [List.all_eq_true]
  intro s hs
  have h := (soc_within_bounds_of_consistent_window exampleDayData
    mediumBatteryConfig exampleSolarConfig exampleRatePeriods (15/100)
    (by decide)).1 s hs
  simp [h.1, h.2]

/-- Claim C3: simulateBattery computes
annualEstimate = (totalSavings / (data.length / 48)) * 365 (in JS
arithmetic), the battery cost defaults to capacity * 500 when no cost is
configured, and the payback period is batteryCost / annualEstimate when
the estimate is positive and Infinity whenever it is at most 0. -/
theorem annualEstimate_payback_formulas
    (data : List ConsumptionDataPoint) (cfg : BatteryConfig)
    (rps : List RatePeriod) :
    (simulateBattery data cfg rps).annualEstimate =
      JsNum.mul
        (JsNum.div (JsNum.fin (simulateBattery data cfg rps).totalSavings)
          (JsNum.fin ((data.length : ℚ) / 48)))
        (JsNum.fin 365) ∧
    (cfg.cost = none → effBatteryCost cfg = cfg.capacity * 500) ∧
    (∀ q, (simulateBattery data cfg rps).annualEstimate = JsNum.fin q →
      (0 < q →
        (simulateBattery data cfg rps).paybackPeriod =
          JsNum.div (JsNum.fin (effBatteryCost cfg))
            (simulateBattery data cfg rps).annualEstimate) ∧
      (q ≤ 0 → (simulateBattery data cfg rps).paybackPeriod = JsNum.posInf)) := by
  refine ⟨rfl, ?_, ?_⟩
  · intro h
    simp [effBatteryCost, jsOr, h]
  · intro q hq
    have hpb : (simulateBattery data cfg rps).paybackPeriod =
        (if (simulateBattery data cfg rps).annualEstimate.gtZero then
          JsNum.div (JsNum.fin (effBatteryCost cfg))
            (simulateBattery data cfg rps).annualEstimate
        else JsNum.posInf) := rfl
    constructor
    · intro hq0
      rw [hpb, hq]
      simp [JsNum.gtZero, hq0]
    · intro hq0
      rw [hpb, hq]
      simp [JsNum.gtZero, not_lt.mpr hq0]

/-- Witness for C3 on the worked example day with the 10 kWh, 6000-cost
battery: the annual estimate is the finite 8979/40 = 224.475 and the
payback period is 6000 divided by it. -/
theorem annualEstimate_payback_formulas_witness :
    (simulateBattery exampleDayData mediumBatteryConfig
        exampleRatePeriods).paybackPeriod =
      JsNum.div (JsNum.fin (effBatteryCost mediumBatteryConfig))
        (simulateBattery exampleDayData mediumBatteryConfig
          exampleRatePeriods).annualEstimate :=
  ((annualEstimate_payback_formulas exampleDayData mediumBatteryConfig
      exampleRatePeriods).2.2 (8979/40) (by decide)).1 (by decide)

/-- Claim C8 counterexample: for an empty input series simulateBattery
does return (it never raises), but its analysis is not free of NaN and
infinite fields: the self-consumption rate and annual estimate are NaN
(0/0) and the peak-shaving benefit is -Infinity (Math.max of an empty
spread times 0.2). -/
theorem simulateBattery_empty_has_nan_fields :
    (simulateBattery [] mediumBatteryConfig exampleRatePeriods).selfConsumptionRate
        = JsNum.nan ∧
    (simulateBattery [] mediumBatteryConfig exampleRatePeriods).peakShavingBenefit
        = JsNum.negInf ∧
    (simulateBattery [] mediumBatteryConfig exampleRatePeriods).annualEstimate
        = JsNum.nan := by
  refine ⟨by decide, by decide, by decide⟩

/-- Claim C8 (amended): for the empty series calculateStatistics returns
null and simulateBattery returns without raising, with empty states, zero
total savings and the zero winter-coverage record, but the daily average,
annual estimate and self-consumption rate are NaN, the peak-shaving
benefit is -Infinity, and the payback period is Infinity. -/
theorem empty_series_results (cfg : BatteryConfig) (rps : List RatePeriod) :
    calculateStatistics [] = none ∧
    (simulateBattery [] cfg rps).states = [] ∧
    (simulateBattery [] cfg rps).totalSavings = 0 ∧
    (simulateBattery [] cfg rps).dailyAverageSavings = JsNum.nan ∧
    (simulateBattery [] cfg rps).annualEstimate = JsNum.nan ∧
    (simulateBattery [] cfg rps).paybackPeriod = JsNum.posInf ∧
    (simulateBattery [] cfg rps).selfConsumptionRate = JsNum.nan ∧
    (simulateBattery [] cfg rps).peakShavingBenefit = JsNum.negInf ∧
    (simulateBattery [] cfg rps).winterCoverage =
      { averageDailyCoverage := 0, minimumCoverage := 0, worstDay := none } :=
  ⟨rfl, rfl, rfl, rfl, rfl, rfl, rfl, rfl, rfl⟩

/-- Claim C9: optional battery fields set to 0 behave as unspecified:
simulateBattery and simulateSolarWithBattery give results identical to
the unset-field run (apart from the configuration record echoed back),
because the JS or-defaults map both 0 and undefined to 10 percent minimum
SoC, 100 percent maximum SoC, and capacity * 500 cost; in particular the
payback computation with cost 0 uses capacity * 500. -/
theorem zero_optional_fields_use_defaults
    (data : List ConsumptionDataPoint) (cfg : BatteryConfig)
    (scfg : SolarConfig) (rps : List RatePeriod) (er : ℚ) :
    (simulateBattery data { cfg with minimumSoc := some 0 } rps =
      { simulateBattery data { cfg with minimumSoc := none } rps with
          batteryConfig := { cfg with minimumSoc := some 0 } }) ∧
    (simulateBattery data { cfg with maximumSoc := some 0 } rps =
      { simulateBattery data { cfg with maximumSoc := none } rps with
          batteryConfig := { cfg with maximumSoc := some 0 } }) ∧
    (simulateSolarWithBattery data scfg { cfg with minimumSoc := some 0 } rps er =
      { simulateSolarWithBattery data scfg { cfg with minimumSoc := none } rps er with
          batteryConfig := { cfg with minimumSoc := some 0 } }) ∧
    (simulateSolarWithBattery data scfg { cfg with maximumSoc := some 0 } rps er =
      { simulateSolarWithBattery data scfg { cfg with maximumSoc := none } rps er with
          batteryConfig := { cfg with maximumSoc := some 0 } }) ∧
    (effBatteryCost { cfg with cost := some 0 } = cfg.capacity * 500) ∧
    ((simulateBattery data { cfg with cost := some 0 } rps).paybackPeriod =
      (simulateBattery data { cfg with cost := none } rps).paybackPeriod) :=
  ⟨rfl, rfl, rfl, rfl, rfl, rfl⟩

/-- Claim C10: in simulateSolarWithBattery, grid charging during the
cheapest period is never debited from savings — totalSavings is exactly
exportEarnings + importSavings, with no charging-cost term — and the
grid-charge branch caps the charged energy only by headroom and
charge-rate: in a cheap-period interval where solar does not exceed
demand (so the battery neither charged from solar nor discharged) and the
battery has headroom, the recorded power flow is
min(maxSoc - soc, chargeRate * hours) / hours, independent of the
interval's consumption. -/
theorem combined_no_charge_cost_and_grid_cap :
    (∀ (data : List ConsumptionDataPoint) (scfg : SolarConfig)
        (bcfg : BatteryConfig) (rps : List RatePeriod) (er : ℚ),
      (simulateSolarWithBattery data scfg bcfg rps er).totalSavings =
        (simulateSolarWithBattery data scfg bcfg rps er).exportEarnings +
          (simulateSolarWithBattery data scfg bcfg rps er).importSavings) ∧
    (∀ (cr dr eff minSoc maxSoc cap : ℚ) (cid : String) (scfg : SolarConfig)
        (rps : List RatePeriod) (er sf : ℚ) (acc : CombinedAcc)
        (point : ConsumptionDataPoint),
      (matchRatePeriodD point.start rps).id = cid →
      estimateGeneration point.start scfg sf * intervalHours point ≤
        point.consumption →
      acc.soc < maxSoc →
      (combinedStep cr dr eff minSoc maxSoc cap cid scfg rps er sf acc
          point).batteryStates =
        acc.batteryStates ++
          [{ timestamp := point.start,
             stateOfCharge := clampSoc minSoc maxSoc
               (acc.soc +
                 min (maxSoc - acc.soc) (cr * intervalHours point) * (eff / 100)),
             socPercentage := clampSoc minSoc maxSoc
               (acc.soc +
                 min (maxSoc - acc.soc) (cr * intervalHours point) * (eff / 100)) /
               cap * 100,
             action := BatAction.charging,
             powerFlow :=
               min (maxSoc - acc.soc) (cr * intervalHours point) /
                 intervalHours point }]) := by
  constructor
  · intro data scfg bcfg rps er
    rfl
  · intro cr dr eff minSoc maxSoc cap cid scfg rps er sf acc point hCheap hg hsoc
    have hmin :
        min (estimateGeneration point.start scfg sf * intervalHours point)
            point.consumption =
          estimateGeneration point.start scfg sf * intervalHours point :=
      min_eq_left hg
    simp [combinedStep, hmin, hCheap, hsoc, lt_irrefl]

/-- Witness for C10 part 2: a cheap-period midnight interval with an empty
battery records a charging state whose power flow is
min(headroom, chargeRate * hours) / hours. -/
theorem combined_no_charge_cost_and_grid_cap_witness :
    (combinedStep 5 5 90 1 10 10 "cheap" exampleSolarConfig
        exampleRatePeriods (15/100) 1
        { soc := 0, totalGeneration := 0, totalExported := 0,
          totalSelfConsumed := 0, totalBatteryCharged := 0,
          totalBatteryDischarged := 0, exportEarnings := 0,
          importSavings := 0, generations := [], batteryStates := [] }
        (exampleInterval 0)).batteryStates =
      [{ timestamp := (exampleInterval 0).start,
         stateOfCharge := clampSoc 1 10
           (0 + min (10 - 0) (5 * intervalHours (exampleInterval 0)) * (90 / 100)),
         socPercentage := clampSoc 1 10
           (0 + min (10 - 0) (5 * intervalHours (exampleInterval 0)) * (90 / 100)) /
           10 * 100,
         action := BatAction.charging,
         powerFlow := min (10 - 0) (5 * intervalHours (exampleInterval 0)) /
           intervalHours (exampleInterval 0) }] := by
  have h := combined_no_charge_cost_and_grid_cap.2 5 5 90 1 10 10 "cheap"
    exampleSolarConfig exampleRatePeriods (15/100) 1
    { soc := 0, totalGeneration := 0, totalExported := 0,
      totalSelfConsumed := 0, totalBatteryCharged := 0,
      totalBatteryDischarged := 0, exportEarnings := 0,
      importSavings := 0, generations := [], batteryStates := [] }
    (exampleInterval 0) (by decide) (by decide) (by decide)
  simpa using h

theorem foldl_add_eq_sum {α : Type} (f : α → ℚ) :
    ∀ (l : List α) (a : ℚ), l.foldl (fun s x => s + f x) a = a + (l.map f).sum := by
  intro l
  induction l with
  | nil => intro a; simp
  | cons x xs ih => intro a; simp [ih, add_assoc]

theorem addToGroup_sum (gs : List (String × List ConsumptionDataPoint))
    (k : String) (x : ConsumptionDataPoint) :
    ((addToGroup gs k x).map (fun g => (g.2.map (fun p => p.consumption)).sum)).sum =
      (gs.map (fun g => (g.2.map (fun p => p.consumption)).sum)).sum + x.consumption := by
  induction gs with
  | nil => simp [addToGroup]
  | cons g rest ih =>
      obtain ⟨k', v⟩ := g
      by_cases h : k' = k
      · simp [addToGroup, h, add_assoc, add_comm, add_left_comm]
      · simp [addToGroup, h, ih, add_assoc]

theorem groupByKey_sum (keyFn : ConsumptionDataPoint → String) :
    ∀ (l : List ConsumptionDataPoint)
      (gs : List (String × List ConsumptionDataPoint)),
      (((l.foldl (fun gs it => addToGroup gs (keyFn it) it) gs)).map
          (fun g => (g.2.map (fun p => p.consumption)).sum)).sum =
        (gs.map (fun g => (g.2.map (fun p => p.consumption)).sum)).sum +
          (l.map (fun p => p.consumption)).sum := by
  intro l
  induction l with
  | nil => intro gs; simp
  | cons x xs ih =>
      intro gs
      simp only [List.foldl_cons, List.map_cons, List.sum_cons]
      rw [ih, addToGroup_sum, add_assoc]

theorem aggregateByDay_total (data : List ConsumptionDataPoint) :
    ((aggregateByDay data).map (fun b => b.totalConsumption)).sum =
      (data.map (fun p => p.consumption)).sum := by
  unfold aggregateByDay
  rw [((List.mergeSort_perm
      (((groupByKey (fun p => formatDayKey p.start) data)).map
        (fun g => createAggregatedData g.1 g.2))
      (fun a b => strLe a.period b.period)).map
        (fun b => b.totalConsumption)).sum_eq]
  rw [List.map_map]
  have hmap :
      ((groupByKey (fun p => formatDayKey p.start) data).map
        ((fun b => b.totalConsumption) ∘ (fun g => createAggregatedData g.1 g.2))) =
      ((groupByKey (fun p => formatDayKey p.start) data).map
        (fun g => (g.2.map (fun p => p.consumption)).sum)) := by
    refine List.map_congr_left ?_
    intro g _
    simp [Function.comp, createAggregatedData, foldl_add_eq_sum]
  rw [hmap]
  have := groupByKey_sum (fun p => formatDayKey p.start) data []
  simpa [groupByKey] using this

/-- Claim C7: day-bucketing partitions the series without losing or
duplicating consumption — the bucket totals of
aggregateByTimeFrame(series, day) (no date filter) sum to the total
consumption of the series. -/
theorem aggregateByDay_conserves_consumption (data : List ConsumptionDataPoint) :
    ((aggregateByTimeFrame data TimeFrame.day none).map
        (fun b => b.totalConsumption)).sum =
      (data.map (fun p => p.consumption)).sum := by
  unfold aggregateByTimeFrame
  by_cases h : data.isEmpty
  · rw [List.isEmpty_iff] at h
    subst h
    simp
  · simp only [h, if_false, Bool.false_eq_true]
    exact aggregateByDay_total data

theorem jsRound_eq_floor (q : ℚ) : jsRound q = ⌊q + 1/2⌋ :=
  Rat.floor_def.symm

theorem intervalHours_pos (point : ConsumptionDataPoint)
    (h : point.start < point.endT) : 0 < intervalHours point := by
  unfold intervalHours
  have hq : (0:ℚ) < ((point.endT - point.start : ℤ) : ℚ) / 60 := by
    apply div_pos _ (by norm_num)
    exact_mod_cast sub_pos.mpr h
  by_cases h0 : jsRound (((point.endT - point.start : ℤ) : ℚ) / 60) = 0
  · simp only [h0, if_pos rfl]
    norm_num
  · have hge : 0 ≤ jsRound (((point.endT - point.start : ℤ) : ℚ) / 60) := by
      rw [jsRound_eq_floor]
      exact Int.floor_nonneg.mpr (by positivity)
    have hpos : 0 < jsRound (((point.endT - point.start : ℤ) : ℚ) / 60) :=
      lt_of_le_of_ne hge (Ne.symm h0)
    simp only [h0, if_neg h0, if_false]
    exact_mod_cast hpos

theorem estimateGeneration_nonneg (t : Timestamp) (cfg : SolarConfig)
    (s : ℚ) : 0 ≤ estimateGeneration t cfg s := by
  by_cases h : 6 ≤ tsHour t ∧ tsHour t ≤ 20
  · simp only [estimateGeneration, if_pos h]
    exact le_max_left _ _
  · simp [estimateGeneration, if_neg h]

theorem max_zero_mul_scale (A s : ℚ) (hs : 0 ≤ s) :
    max 0 (A * s) = s * max 0 (A * 1) := by
  rw [mul_one, mul_max_of_nonneg 0 A hs, mul_zero, mul_comm s A]

theorem estimateGeneration_scale (t : Timestamp) (cfg : SolarConfig)
    (s : ℚ) (hs : 0 ≤ s) :
    estimateGeneration t cfg s = s * estimateGeneration t cfg 1 := by
  by_cases h : 6 ≤ tsHour t ∧ tsHour t ≤ 20
  · simp only [estimateGeneration, if_pos h]
    exact max_zero_mul_scale _ s hs
  · simp [estimateGeneration, if_neg h]

theorem sum_map_mul_left_q {α : Type} (c : ℚ) (f : α → ℚ) (l : List α) :
    (l.map (fun x => c * f x)).sum = c * (l.map f).sum := by
  induction l with
  | nil => simp
  | cons x xs ih => simp [ih, mul_add]

theorem firstPassTotal_eq_sum (data : List ConsumptionDataPoint)
    (cfg : SolarConfig) :
    firstPassTotal data cfg =
      (data.map (fun pt => estimateGeneration pt.start cfg 1 * intervalHours pt)).sum := by
  unfold firstPassTotal
  rw [foldl_add_eq_sum]
  exact zero_add _

theorem foldl_solarStep_totalGeneration (cfg : SolarConfig)
    (rps : List RatePeriod) (er sf : ℚ) :
    ∀ (l : List ConsumptionDataPoint) (acc : SolarAcc),
      (l.foldl (solarStep cfg rps er sf) acc).totalGeneration =
        acc.totalGeneration +
          (l.map (fun pt => estimateGeneration pt.start cfg sf * intervalHours pt)).sum := by
  intro l
  induction l with
  | nil => intro acc; simp
  | cons x xs ih =>
      intro acc
      simp only [List.foldl_cons, List.map_cons, List.sum_cons]
      rw [ih]
      simp [solarStep, add_assoc]

/-- Claim C6: calculateScalingFactor returns 1.0 when no (truthy)
predictedAnnualOutput is configured or when the unscaled first-pass total
is exactly zero; otherwise it returns the target divided by the
annualized first-pass total ((total / (len/48)) * 365), and consequently
the annualized total generation of simulateSolar equals the target
exactly (the model computes in exact rational arithmetic, so the claimed
small tolerance is met with equality). -/
theorem calculateScalingFactor_formula_and_roundtrip
    (data : List ConsumptionDataPoint) (cfg : SolarConfig)
    (rps : List RatePeriod) (er : ℚ) :
    (cfg.predictedAnnualOutput = none → calculateScalingFactor data cfg = 1) ∧
    (∀ p : ℚ, cfg.predictedAnnualOutput = some p → p ≠ 0 →
      firstPassTotal data cfg = 0 → calculateScalingFactor data cfg = 1) ∧
    (∀ p : ℚ, cfg.predictedAnnualOutput = some p → 0 < p →
      firstPassTotal data cfg ≠ 0 →
      (calculateScalingFactor data cfg =
        p / (firstPassTotal data cfg / ((data.length : ℚ) / 48) * 365)) ∧
      ((∀ pt ∈ data, pt.start < pt.endT) → data ≠ [] →
        (simulateSolar data cfg rps er).totalGeneration /
            ((data.length : ℚ) / 48) * 365 = p)) := by
  refine ⟨?_, ?_, ?_⟩
  · intro h
    simp [calculateScalingFactor, h]
  · intro p hp hp0 hT
    simp [calculateScalingFactor, hp, hp0, hT]
  · intro p hp hppos hT
    have hformula : calculateScalingFactor data cfg =
        p / (firstPassTotal data cfg / ((data.length : ℚ) / 48) * 365) := by
      simp [calculateScalingFactor, hp, hppos.ne', hT]
    refine ⟨hformula, ?_⟩
    intro hdur hne
    have hTnonneg : 0 ≤ firstPassTotal data cfg := by
      rw [firstPassTotal_eq_sum]
      apply List.sum_nonneg
      intro x hx
      obtain ⟨pt, hpt, rfl⟩ := List.mem_map.mp hx
      exact mul_nonneg (estimateGeneration_nonneg pt.start cfg 1)
        (le_of_lt (intervalHours_pos pt (hdur pt hpt)))
    have hTpos : 0 < firstPassTotal data cfg :=
      lt_of_le_of_ne hTnonneg (Ne.symm hT)
    have hlen : 0 < data.length := List.length_pos.mpr hne
    have hdays : (0:ℚ) < (data.length : ℚ) / 48 := by
      apply div_pos _ (by norm_num)
      exact_mod_cast hlen
    have hs : 0 ≤ calculateScalingFactor data cfg := by
      rw [hformula]
      positivity
    have htg : (simulateSolar data cfg rps er).totalGeneration =
        calculateScalingFactor data cfg * firstPassTotal data cfg := by
      have h1 : (simulateSolar data cfg rps er).totalGeneration =
          (0:ℚ) + (data.map (fun pt => estimateGeneration pt.start cfg
              (calculateScalingFactor data cfg) * intervalHours pt)).sum := by
        simp only [simulateSolar]
        exact foldl_solarStep_totalGeneration cfg rps er
          (calculateScalingFactor data cfg) data _
      rw [h1, zero_add]
      rw [List.map_congr_left (fun pt _ => by
        rw [estimateGeneration_scale pt.start cfg _ hs, mul_assoc])]
      rw [sum_map_mul_left_q, ← firstPassTotal_eq_sum]
    rw [htg, hformula]
    field_simp
    ring

/-- Witness for C6: a single 13:00 interval with a 3000 kWh annual target
yields an annualized simulated generation of exactly 3000. -/
theorem calculateScalingFactor_formula_and_roundtrip_witness :
    (simulateSolar [exampleInterval 26] exampleSolarConfig exampleRatePeriods
        (15/100)).totalGeneration /
        ((([exampleInterval 26] : List ConsumptionDataPoint).length : ℚ) / 48) *
        365 = 3000 :=
  ((calculateScalingFactor_formula_and_roundtrip [exampleInterval 26]
      exampleSolarConfig exampleRatePeriods (15/100)).2.2 3000 rfl
      (by norm_num) (by decide)).2 (by decide) (by decide)
